import Mathlib

/-!
Shallow embedding of the asynchronous worker-coordination and persistence
layer of the SIGINT chat panel (src/qtgui/docksigint.cpp / docksigint.h).

The embedding models the three cooperating components:
  * `NetworkWorker`   — local pre-classification and the outbound generation call;
  * `DatabaseWorker`  — the SQLite-backed persistence store (chats, messages, settings);
  * `DockSigint`      — the conversation orchestrator resident on the interactive
                        thread, with its in-memory message mirror.

Machine-level details that the claims do not depend on (HTML rendering,
Qt widget plumbing, logging text) are either dropped or represented as
explicit output commands, so that every handler is a pure function from a
state and an input to a new state and a list of emitted commands.
-/

/- ===================== NetworkWorker ===================== -/

/-- One invocation of the external helper process used by
`NetworkWorker::analyzeTuningRequest`.  `stdoutJson` is the result of
`QJsonDocument::fromJson` applied to the process's standard output:
`none` when the output is not valid JSON, otherwise the JSON object's
string-valued fields (`QJsonValue::toString` yields `""` for a missing
or non-string field, which the association-list lookup default mirrors). -/
structure ClassifierRun where
  scriptCreated : Bool
  started : Bool
  finished : Bool
  exitCode : Int
  stdoutJson : Option (List (String × String))
deriving DecidableEq

/-- `result[k].toString()` on the parsed JSON object: the field's string
value, or `""` when the field is absent. -/
def jsonField (obj : List (String × String)) (k : String) : String :=
  (obj.lookup k).getD ""

/-- `NetworkWorker::analyzeTuningRequest` (docksigint.cpp:56-196): returns
`true` only when the temporary script was created, the helper process
started and finished, its standard output parsed as JSON, and the object's
`requires_tuning` field equals `"true"`.  Every other path returns `false`.
The process exit code is only logged, never tested. -/
def NetworkWorker.analyzeTuningRequest (run : ClassifierRun) : Bool :=
  run.scriptCreated && run.started && run.finished &&
    (match run.stdoutJson with
     | some obj => jsonField obj "requires_tuning" == "true"
     | none => false)

/-- The fixed acknowledgement emitted when a tuning request is detected
(docksigint.cpp:210). -/
def cannedAck : String := "✅ Tuning request processed - adjusting radio frequency..."

/-- Observable outcome of one `NetworkWorker::sendMessage` call:
the `messageReceived` payloads emitted synchronously, and the number of
outbound HTTP posts issued. -/
structure SendOutcome where
  emitted : List String
  httpCalls : Nat
deriving DecidableEq

/-- `NetworkWorker::sendMessage` (docksigint.cpp:198-260): classify the
latest message locally; on a positive match emit the canned acknowledgement
and return without any network call; otherwise issue exactly one POST to
the generation service. -/
def NetworkWorker.sendMessage (run : ClassifierRun) : SendOutcome :=
  if NetworkWorker.analyzeTuningRequest run then
    { emitted := [cannedAck], httpCalls := 0 }
  else
    { emitted := [], httpCalls := 1 }

/-- The helper script generated at docksigint.cpp:69-100 prints its JSON
result as the sole standard-output line and then falls off the end of the
`try` block (exit code 0); the `except` branch prints nothing to standard
output (logging goes to standard error) and calls `sys.exit(1)`.  Hence a
non-zero exit implies no JSON on standard output. -/
def scriptConsistent (run : ClassifierRun) : Prop :=
  run.exitCode ≠ 0 → run.stdoutJson = none

/- ===================== DatabaseWorker ===================== -/

/-- A row of the `chats` table. -/
structure ChatRow where
  id : Nat
  name : String
deriving DecidableEq

/-- A row of the `messages` table.  `id` is the SQLite rowid (INTEGER
PRIMARY KEY), assigned in insertion order; `timestamp` abstracts
`CURRENT_TIMESTAMP`. -/
structure MessageRow where
  id : Nat
  chat_id : Int
  role : String
  content : String
  timestamp : Nat
deriving DecidableEq

/-- Relational state of the single database file: the three tables, plus
the next rowid the `messages` table will assign. -/
structure DbState where
  chats : List ChatRow
  messages : List MessageRow
  settings : List (String × String)
  nextMsgId : Nat
deriving DecidableEq

/-- A freshly created database file, before any initialization. -/
def emptyDb : DbState := { chats := [], messages := [], settings := [], nextMsgId := 1 }

/-- Failure injection for the steps of `DatabaseWorker::saveMessage`:
whether the open, transaction begin, INSERT, verification SELECT and
commit each succeed. -/
structure SaveEnv where
  openOk : Bool
  beginOk : Bool
  insertOk : Bool
  selectOk : Bool
  commitOk : Bool
deriving DecidableEq

/-- The all-steps-succeed environment. -/
def allOkSave : SaveEnv :=
  { openOk := true, beginOk := true, insertOk := true, selectOk := true, commitOk := true }

/-- Failure injection for the read-only operations (open / query exec). -/
structure ReadEnv where
  openOk : Bool
  execOk : Bool
deriving DecidableEq

/-- The all-steps-succeed read environment. -/
def readOk : ReadEnv := { openOk := true, execOk := true }

/-- `DatabaseWorker::saveMessage` (docksigint.cpp:355-421): open check,
begin a dedicated transaction, INSERT the row, re-read it by the assigned
rowid to verify it, commit only after verification, and acknowledge the
assigned id; every failing step rolls the transaction back (restoring the
pre-call state) and reports an error instead of an id. -/
def DatabaseWorker.saveMessage (env : SaveEnv) (now : Nat) (st : DbState)
    (chatId : Int) (role content : String) : DbState × Except String Nat :=
  if !env.openOk then (st, Except.error "Database not open")
  else if !env.beginOk then (st, Except.error "Failed to start transaction")
  else if !env.insertOk then (st, Except.error "Error saving message")
  else
    let id := st.nextMsgId
    let st' : DbState :=
      { st with
        messages := st.messages ++ [{ id := id, chat_id := chatId, role := role,
                                      content := content, timestamp := now }],
        nextMsgId := id + 1 }
    if env.selectOk && st'.messages.any (fun r => r.id == id) then
      if env.commitOk then (st', Except.ok id)
      else (st, Except.error "Failed to commit transaction")
    else (st, Except.error "Failed to verify saved message")

/-- What SQLite guarantees for the unkeyed `ORDER BY timestamp ASC` of
docksigint.cpp:436: the returned rows are some permutation of the selected
rows whose timestamps are non-decreasing.  The relative order of rows with
equal timestamps is left undefined (the query has no secondary sort key),
so this contract deliberately does not fix it. -/
def isOrderByTimestampResult (rows result : List MessageRow) : Prop :=
  result.Perm rows ∧ List.Pairwise (fun a b => a.timestamp ≤ b.timestamp) result

/-- `DatabaseWorker::loadChatHistory` (docksigint.cpp:423-458), as a
relation between a call and its possible emitted outcome: a single
`SELECT role, content FROM messages WHERE chat_id = ? ORDER BY timestamp ASC`,
whose row order is constrained only by `isOrderByTimestampResult`; an empty
row set is returned through the success signal, not as an error. -/
def DatabaseWorker.loadChatHistory (env : ReadEnv) (st : DbState) (chatId : Int)
    (out : Except String (List (String × String))) : Prop :=
  if !env.openOk then out = Except.error "Database not open"
  else if !env.execOk then out = Except.error "Error loading chat history"
  else ∃ result,
    isOrderByTimestampResult (st.messages.filter (fun r => r.chat_id == chatId)) result
    ∧ out = Except.ok (result.map (fun r => (r.role, r.content)))

/-- `DatabaseWorker::loadSetting` (docksigint.cpp:553-584): a point lookup;
a missing key is reported through the same `settingLoaded` signal as a
present key, with a null (empty) string value. -/
def DatabaseWorker.loadSetting (env : ReadEnv) (st : DbState) (key : String) :
    Except String (String × String) :=
  if !env.openOk then Except.error "Database not open"
  else if !env.execOk then Except.error "Error loading setting"
  else
    match st.settings.lookup key with
    | some v => Except.ok (key, v)
    | none => Except.ok (key, "")

/-- The chat-relevant effect of `DatabaseWorker::DatabaseWorker`
(docksigint.cpp:263-343) and of the bootstrap block (docksigint.cpp:717-759):
`CREATE TABLE IF NOT EXISTS` for the three tables (a no-op on the relational
state), then `INSERT OR IGNORE INTO chats (id, name) VALUES (1, ...)`.
`ok = false` covers every failing step: each failure rolls the transaction
back, leaving the state unchanged. -/
def initializeDatabase (ok : Bool) (name : String) (st : DbState) : DbState :=
  if ok then
    if st.chats.any (fun c => c.id == 1) then st
    else { st with chats := st.chats ++ [{ id := 1, name := name }] }
  else st

/-- Iterate successful initializations against the same database file. -/
def iterInit (name : String) : Nat → DbState → DbState
  | 0, st => st
  | n + 1, st => iterInit name n (initializeDatabase true name st)

/-- Issue a sequence of saves for one chat through the (single, serial)
persistence worker; each save carries its role, content and the timestamp
`CURRENT_TIMESTAMP` evaluates to when the worker processes it. -/
def runSaves (chatId : Int) : DbState → List (String × String × Nat) → DbState
  | st, [] => st
  | st, s :: rest =>
      runSaves chatId (DatabaseWorker.saveMessage allOkSave s.2.2 st chatId s.1 s.2.1).1 rest

/-- The message rows a sequence of saves appends: rowids assigned
incrementally from `n`. -/
def mkRows (chatId : Int) : Nat → List (String × String × Nat) → List MessageRow
  | _, [] => []
  | n, s :: rest =>
      { id := n, chat_id := chatId, role := s.1, content := s.2.1, timestamp := s.2.2 }
        :: mkRows chatId (n + 1) rest

/- ===================== DockSigint (orchestrator) ===================== -/

/-- An in-memory message of the mirror (`DockSigint::Message`,
docksigint.h:124-128).  `id = -1` marks a message whose save
acknowledgement has not yet arrived. -/
structure OMessage where
  id : Int
  role : String
  content : String
deriving DecidableEq

/-- The asynchronous requests and view effects the orchestrator emits:
fire-and-forget messages to the database worker (`loadHistory`, `saveMsg`,
`saveSetting`), the generation request to the network worker (`generate`),
the view operations (`clearView`, `appendView`), and diagnostic logging
(`log`). -/
inductive OrchCmd
  | loadHistory (chatId : Int)
  | saveMsg (chatId : Int) (role content : String)
  | saveSetting (key value : String)
  | generate
  | clearView
  | appendView (content : String) (isUser : Bool)
  | log (text : String)
deriving DecidableEq

/-- Orchestrator state owned by the interactive thread (docksigint.h:149-151,
186-187). -/
structure OrchState where
  currentChatId : Int
  messageHistory : List OMessage
  chatList : List (Int × String)
  m_lastActiveChatLoaded : Bool
  m_chatsLoaded : Bool
deriving DecidableEq

/-- State after construction: `currentChatId = 1` (docksigint.cpp:596),
empty mirror and chat list, both cold-start flags false
(docksigint.cpp:940-941). -/
def initOrchState : OrchState :=
  { currentChatId := 1, messageHistory := [], chatList := [],
    m_lastActiveChatLoaded := false, m_chatsLoaded := false }

/-- The placeholder shown when a loaded chat is empty (docksigint.cpp:788-794). -/
def welcomePlaceholder : String :=
  "👋 Welcome to your new chat session!\n\nI'm here to help you analyze signals and work with your SDR. You can:\n• Capture and analyze waterfall screenshots (Ctrl+P)\n• Ask questions about signal types and characteristics\n• Get help with SDR settings and configurations\n\nWhat would you like to do?"

/-- `DockSigint::appendMessage` (docksigint.cpp:1927-1949): append a
placeholder-id message to the mirror, fire the save request for the
current chat, and append to the view. -/
def DockSigint.appendMessage (st : OrchState) (content : String) (isUser : Bool) :
    OrchState × List OrchCmd :=
  let role := if isUser then "user" else "assistant"
  ({ st with messageHistory := st.messageHistory ++ [{ id := -1, role := role, content := content }] },
   [OrchCmd.saveMsg st.currentChatId role content, OrchCmd.appendView content isUser])

/-- `DockSigint::switchToChat` (docksigint.cpp:1160-1171): no-op when the
target already is the current chat; otherwise set the current chat, clear
the mirror and the view, fire one history load, and persist the
`last_active_chat` setting. -/
def DockSigint.switchToChat (st : OrchState) (chatId : Int) : OrchState × List OrchCmd :=
  if chatId == st.currentChatId then (st, [])
  else
    ({ st with currentChatId := chatId, messageHistory := [] },
     [OrchCmd.clearView, OrchCmd.loadHistory chatId,
      OrchCmd.saveSetting "last_active_chat" (toString chatId)])

/-- The `historyLoaded` handler (docksigint.cpp:774-797): the signal carries
only the loaded `(role, content)` rows — no chat id — and the handler
unconditionally clears the mirror and repopulates it from the payload,
appending each message to the view (plus a placeholder when empty). -/
def DockSigint.onHistoryLoaded (st : OrchState) (msgs : List (String × String)) :
    OrchState × List OrchCmd :=
  ({ st with messageHistory := msgs.map (fun m => { id := -1, role := m.1, content := m.2 }) },
   (msgs.map (fun m => OrchCmd.appendView m.2 (m.1 == "user"))) ++
     (if msgs.isEmpty then [OrchCmd.appendView welcomePlaceholder false] else []))

/-- Overwrite the id of the last element of a list (`messageHistory.last().id = id`). -/
def setLastId (id : Int) : List OMessage → List OMessage
  | [] => []
  | [m] => [{ m with id := id }]
  | m :: rest => m :: setLastId id rest

/-- The `messageSaved` handler (docksigint.cpp:766-770): when the mirror is
non-empty, assign the acknowledged id to the message that is currently last
in the mirror. -/
def DockSigint.onMessageSaved (st : OrchState) (id : Int) : OrchState :=
  if st.messageHistory.isEmpty then st
  else { st with messageHistory := setLastId id st.messageHistory }

/-- The `DatabaseWorker::error` handler (docksigint.cpp:771-773): the error
is logged and nothing else happens — no view or mirror change, no message
appended to the transcript. -/
def DockSigint.onDatabaseError (st : OrchState) (errMsg : String) : OrchState × List OrchCmd :=
  (st, [OrchCmd.log ("Database worker error: " ++ errMsg)])

/-- `DockSigint::switchToLastActiveChat` (docksigint.cpp:1745-1778): when
`currentChatId` occurs in the chat list, call `switchToChat currentChatId`
(the UI-selector update is view chrome and is not modeled); otherwise do
nothing. -/
def DockSigint.switchToLastActiveChat (st : OrchState) : OrchState × List OrchCmd :=
  if st.chatList.any (fun c => c.1 == st.currentChatId) then
    DockSigint.switchToChat st st.currentChatId
  else (st, [])

/-- `DockSigint::onChatsLoaded` (docksigint.cpp:1205-1233): replace the
chat list, mark the list as loaded, and switch to the last active chat when
its setting has already arrived. -/
def DockSigint.onChatsLoaded (st : OrchState) (chats : List (Int × String)) :
    OrchState × List OrchCmd :=
  let st1 := { st with chatList := chats, m_chatsLoaded := true }
  if st1.m_lastActiveChatLoaded then DockSigint.switchToLastActiveChat st1 else (st1, [])

/-- Digit run of `QString::toInt`: accumulate decimal digits; any
non-digit character makes the whole parse fail. -/
def parseDigits : List Char → Nat → Option Nat
  | [], acc => some acc
  | c :: cs, acc => if c.isDigit then parseDigits cs (acc * 10 + (c.toNat - 48)) else none

/-- `QString::toInt` on a decimal string: the parsed integer (with optional
leading minus sign), `0` when the string does not parse as a number. -/
def qtToInt (s : String) : Int :=
  match s.data with
  | '-' :: cs =>
      match parseDigits cs 0 with
      | some n => -(n : Int)
      | none => 0
  | cs =>
      match parseDigits cs 0 with
      | some n => (n : Int)
      | none => 0

/-- `QString::trimmed`: strip leading and trailing whitespace. -/
def qtTrimmed (s : String) : String :=
  String.mk (((s.data.dropWhile Char.isWhitespace).reverse.dropWhile Char.isWhitespace).reverse)

/-- The `settingLoaded` handler (docksigint.cpp:820-841): only the
`last_active_chat` key with a non-empty value naming a positive chat id has
an effect — it records the id in `currentChatId`, sets the flag, and, when
the chat list is already known, runs `switchToLastActiveChat`. -/
def DockSigint.onSettingLoaded (st : OrchState) (key value : String) :
    OrchState × List OrchCmd :=
  if key == "last_active_chat" && !value.isEmpty then
    let chatId := qtToInt value
    if chatId > 0 then
      let st1 := { st with m_lastActiveChatLoaded := true, currentChatId := chatId }
      if st1.m_chatsLoaded then DockSigint.switchToLastActiveChat st1 else (st1, [])
    else (st, [])
  else (st, [])

/-- `DockSigint::onSendClicked` plus `sendToClaude` (docksigint.cpp:1024-1035,
1053-1128): a non-empty trimmed input is appended to the mirror (firing its
save), then either one generation request is emitted (API key present) or
an error message is appended instead. -/
def DockSigint.onSendClicked (st : OrchState) (input : String) (apiKeyPresent : Bool) :
    OrchState × List OrchCmd :=
  let text := qtTrimmed input
  if text.data.isEmpty then (st, [])
  else
    let p1 := DockSigint.appendMessage st text true
    if apiKeyPresent then (p1.1, p1.2 ++ [OrchCmd.generate])
    else
      let p2 := DockSigint.appendMessage p1.1
        "Error: API key not found. Please check your .env file." false
      (p2.1, p1.2 ++ p2.2)

/-- The asynchronous inputs the orchestrator reacts to. -/
inductive OrchEvent
  | selectChat (chatId : Int)
  | historyResult (msgs : List (String × String))
  | chatsResult (chats : List (Int × String))
  | settingResult (key value : String)
  | sendClick (text : String)
  | saved (id : Int)
  | dbError (msg : String)
  | generationResult (text : String)
deriving DecidableEq

/-- Dispatch one queued event to its handler. -/
def stepEvent (apiKeyPresent : Bool) (st : OrchState) : OrchEvent → OrchState × List OrchCmd
  | OrchEvent.selectChat chatId => DockSigint.switchToChat st chatId
  | OrchEvent.historyResult msgs => DockSigint.onHistoryLoaded st msgs
  | OrchEvent.chatsResult chats => DockSigint.onChatsLoaded st chats
  | OrchEvent.settingResult key value => DockSigint.onSettingLoaded st key value
  | OrchEvent.sendClick text => DockSigint.onSendClicked st text apiKeyPresent
  | OrchEvent.saved id => (DockSigint.onMessageSaved st id, [])
  | OrchEvent.dbError msg => DockSigint.onDatabaseError st msg
  | OrchEvent.generationResult text => DockSigint.appendMessage st text false

/-- Process a queue of events in arrival order, accumulating the emitted
commands. -/
def runEvents (apiKeyPresent : Bool) : OrchState → List OrchEvent → OrchState × List OrchCmd
  | st, [] => (st, [])
  | st, e :: rest =>
      let p := stepEvent apiKeyPresent st e
      let q := runEvents apiKeyPresent p.1 rest
      (q.1, p.2 ++ q.2)

/-- Number of generation requests among emitted commands. -/
def countGenerate (cs : List OrchCmd) : Nat :=
  cs.countP (fun c => match c with | OrchCmd.generate => true | _ => false)

/-- Number of history-load requests among emitted commands. -/
def countLoadHistory (cs : List OrchCmd) : Nat :=
  cs.countP (fun c => match c with | OrchCmd.loadHistory _ => true | _ => false)

/-- Number of transcript (view) appends among emitted commands. -/
def countAppendView (cs : List OrchCmd) : Nat :=
  cs.countP (fun c => match c with | OrchCmd.appendView _ _ => true | _ => false)

/-- Number of generation results among a queue of events. -/
def countResolved (evs : List OrchEvent) : Nat :=
  evs.countP (fun e => match e with | OrchEvent.generationResult _ => true | _ => false)

/-- Generations in flight after a trace: requests issued minus results
received. -/
def inflightAfter (apiKeyPresent : Bool) (st : OrchState) (evs : List OrchEvent) : Int :=
  (countGenerate (runEvents apiKeyPresent st evs).2 : Int) - (countResolved evs : Int)

/- ===================== Theorems ===================== -/

/-- Overwriting the id of the last element of `front ++ [lastm]` changes
exactly that last element. -/
theorem setLastId_append (id : Int) (front : List OMessage) (lastm : OMessage) :
    setLastId id (front ++ [lastm]) = front ++ [{ lastm with id := id }] := by
  induction front with
  | nil => rfl
  | cons x xs ih =>
      cases xs with
      | nil => rfl
      | cons y ys => exact congrArg (List.cons x) ih

/-- Claim C1, counterexample: switch to chat 2 (A), then to chat 3 (B);
B's history-load result arrives first and A's late result arrives last.
The mirror ends up holding A's messages, not B's — the late result for the
superseded chat id is applied, not discarded. -/
theorem c1_counterexample :
    (runEvents true initOrchState
        [OrchEvent.selectChat 2, OrchEvent.selectChat 3,
         OrchEvent.historyResult [("user", "message of chat B")],
         OrchEvent.historyResult [("user", "message of chat A")]]).1.messageHistory
      = [{ id := -1, role := "user", content := "message of chat A" }]
    ∧ ([{ id := -1, role := "user", content := "message of chat A" }] : List OMessage)
      ≠ [{ id := -1, role := "user", content := "message of chat B" }] := by
  exact ⟨rfl, by decide⟩

/-- Claim C1, amended: the `historyLoaded` signal carries no chat id, and
the handler repopulates the mirror unconditionally from the arriving
payload — the mirror always ends up holding the messages of whichever
history-load result arrived last, with no comparison against the most
recently requested chat id. -/
theorem c1_amended_late_load_overwrites (st : OrchState) (msgs : List (String × String)) :
    (DockSigint.onHistoryLoaded st msgs).1.messageHistory
        = msgs.map (fun m => { id := -1, role := m.1, content := m.2 })
    ∧ (DockSigint.onHistoryLoaded st msgs).1.currentChatId = st.currentChatId := by
  exact ⟨rfl, rfl⟩

/-- Claim C2, counterexample: append "m1" and "m2" (both saves still
unacknowledged, ids `-1`), then the acknowledgement for the first save
arrives with store id 5.  The handler assigns 5 to the *last* message
("m2"), leaving the oldest placeholder ("m1") at `-1` — not the
position-matching reconciliation the claim states. -/
theorem c2_counterexample :
    (DockSigint.onMessageSaved
        (DockSigint.appendMessage
          (DockSigint.appendMessage initOrchState "m1" true).1 "m2" true).1 5).messageHistory
      = [{ id := -1, role := "user", content := "m1" },
         { id := 5, role := "user", content := "m2" }]
    ∧ ([{ id := -1, role := "user", content := "m1" },
        { id := 5, role := "user", content := "m2" }] : List OMessage)
      ≠ [{ id := 5, role := "user", content := "m1" },
         { id := -1, role := "user", content := "m2" }] := by
  exact ⟨rfl, by decide⟩

/-- Claim C2, amended: a save acknowledgement assigns the store id to the
message currently last in the mirror (whatever its position or current id),
leaving every other position untouched; reconciliation is not by matching
the oldest placeholder. -/
theorem c2_amended_ack_updates_last (cur : Int) (cl : List (Int × String)) (f1 f2 : Bool)
    (front : List OMessage) (lastm : OMessage) (id : Int) :
    DockSigint.onMessageSaved
        { currentChatId := cur, messageHistory := front ++ [lastm], chatList := cl,
          m_lastActiveChatLoaded := f1, m_chatsLoaded := f2 } id
      = { currentChatId := cur, messageHistory := front ++ [{ lastm with id := id }],
          chatList := cl, m_lastActiveChatLoaded := f1, m_chatsLoaded := f2 } := by
  have hne : (front ++ [lastm]).isEmpty = false := by cases front <;> rfl
  simp [DockSigint.onMessageSaved, hne, setLastId_append]

/-- Claim C3 (code bug): the cold-start restore path never performs the
switch.  `settingLoaded` first sets `currentChatId` to the target id, and
`switchToLastActiveChat` then calls `switchToChat currentChatId`, whose
`chatId == currentChatId` guard makes it a no-op — so for either arrival
order of the chat list and the `last_active_chat` setting, the mirror is
never cleared and no history load is ever issued for the last active chat,
while `currentChatId` still ends up pointing at it. -/
theorem c3_bug_restore_never_switches :
    (∀ st : OrchState, DockSigint.switchToLastActiveChat st = (st, []))
    ∧ countLoadHistory (runEvents true initOrchState
        [OrchEvent.chatsResult [(1, "Chat 1"), (2, "Chat 2")],
         OrchEvent.settingResult "last_active_chat" "2"]).2 = 0
    ∧ (runEvents true initOrchState
        [OrchEvent.chatsResult [(1, "Chat 1"), (2, "Chat 2")],
         OrchEvent.settingResult "last_active_chat" "2"]).1.currentChatId = 2
    ∧ countLoadHistory (runEvents true initOrchState
        [OrchEvent.settingResult "last_active_chat" "2",
         OrchEvent.chatsResult [(1, "Chat 1"), (2, "Chat 2")]]).2 = 0 := by
  refine ⟨?_, by decide, by decide, by decide⟩
  intro st
  unfold DockSigint.switchToLastActiveChat DockSigint.switchToChat
  simp

/-- Claim C6, counterexample: a persistence error arrives; the handler
leaves the state untouched and emits only a log entry — no inline system
message is appended to the conversation transcript, contrary to the claim. -/
theorem c6_counterexample :
    DockSigint.onDatabaseError initOrchState "disk I/O error"
      = (initOrchState, [OrchCmd.log "Database worker error: disk I/O error"])
    ∧ countAppendView (DockSigint.onDatabaseError initOrchState "disk I/O error").2 = 0 := by
  exact ⟨rfl, rfl⟩

/-- Claim C6, amended: a persistence error leaves the in-memory mirror (and
all orchestrator state) unchanged and is only logged; it is not surfaced as
an inline message in the transcript. -/
theorem c6_amended_error_only_logged (st : OrchState) (e : String) :
    (DockSigint.onDatabaseError st e).1 = st
    ∧ countAppendView (DockSigint.onDatabaseError st e).2 = 0
    ∧ (DockSigint.onDatabaseError st e).2 = [OrchCmd.log ("Database worker error: " ++ e)] := by
  exact ⟨rfl, rfl, rfl⟩

/-- `countGenerate` distributes over command concatenation. -/
theorem countGenerate_append (a b : List OrchCmd) :
    countGenerate (a ++ b) = countGenerate a + countGenerate b :=
  List.countP_append _ _ _

/-- Every non-empty submission emits exactly one generation request,
regardless of the current state — there is no pending-generation guard. -/
theorem countGenerate_clicks (texts : List String) :
    ∀ st : OrchState, (∀ t ∈ texts, (qtTrimmed t).data.isEmpty = false) →
      countGenerate (runEvents true st (texts.map OrchEvent.sendClick)).2 = texts.length := by
  induction texts with
  | nil => intro st _; rfl
  | cons t ts ih =>
      intro st h
      have ht : (qtTrimmed t).data.isEmpty = false := h t (List.mem_cons_self t ts)
      have hrest := ih (DockSigint.onSendClicked st t true).1
        (fun x hx => h x (List.mem_cons_of_mem t hx))
      have hsend : countGenerate (DockSigint.onSendClicked st t true).2 = 1 := by
        simp [DockSigint.onSendClicked, ht, DockSigint.appendMessage, countGenerate]
      simp only [List.map_cons, runEvents, stepEvent, countGenerate_append, hsend, hrest,
        List.length_cons]
      omega

/-- A trace consisting only of send clicks contains no generation results. -/
theorem countResolved_clicks (texts : List String) :
    countResolved (texts.map OrchEvent.sendClick) = 0 := by
  induction texts with
  | nil => rfl
  | cons t ts ih => simp [countResolved, List.countP_cons] at ih ⊢

/-- Claim C7, counterexample: two user submissions with no generation
result in between leave two generation requests in flight — the
orchestrator has no guard limiting itself to one Dispatch-Pending state. -/
theorem c7_counterexample :
    inflightAfter true initOrchState
      [OrchEvent.sendClick "tune to 101.1 MHz", OrchEvent.sendClick "what signal is this?"] = 2 := by
  decide

/-- Claim C7, amended: nothing bounds concurrent generations; every
non-empty submission issues one more generation request, so after `n`
submissions with no results yet, `n` generations are in flight. -/
theorem c7_amended_one_request_per_click (texts : List String) (st : OrchState)
    (h : ∀ t ∈ texts, (qtTrimmed t).data.isEmpty = false) :
    inflightAfter true st (texts.map OrchEvent.sendClick) = (texts.length : Int) := by
  unfold inflightAfter
  rw [countGenerate_clicks texts st h, countResolved_clicks]
  simp

/-- Claim C7, amended, witness: two concrete non-empty submissions leave
two generations in flight. -/
theorem c7_amended_witness :
    inflightAfter true initOrchState
      (["scan the band", "identify the carrier"].map OrchEvent.sendClick) = 2 := by
  have := c7_amended_one_request_per_click ["scan the band", "identify the carrier"]
    initOrchState (by decide)
  simpa using this

/-- Claim C4: a positive local classification (single-line JSON object with
`requires_tuning = "true"`) yields the fixed canned acknowledgement and
zero outbound HTTP calls; a negative or inconclusive classification —
script not created, helper not started or not finished, non-zero exit,
non-JSON output, or a missing/mismatching field — yields exactly one
outbound HTTP call and no synthesized reply. -/
theorem c4_classification_gates_http (run : ClassifierRun) (hc : scriptConsistent run) :
    (NetworkWorker.analyzeTuningRequest run = true →
        NetworkWorker.sendMessage run = { emitted := [cannedAck], httpCalls := 0 })
    ∧ (NetworkWorker.analyzeTuningRequest run = false →
        NetworkWorker.sendMessage run = { emitted := [], httpCalls := 1 })
    ∧ (run.scriptCreated = false ∨ run.started = false ∨ run.finished = false
        ∨ run.exitCode ≠ 0 ∨ run.stdoutJson = none
        ∨ (∀ obj, run.stdoutJson = some obj → jsonField obj "requires_tuning" ≠ "true") →
        (NetworkWorker.sendMessage run).httpCalls = 1
        ∧ (NetworkWorker.sendMessage run).emitted = []) := by
  refine ⟨?_, ?_, ?_⟩
  · intro h; simp [NetworkWorker.sendMessage, h]
  · intro h; simp [NetworkWorker.sendMessage, h]
  · intro h
    have hfalse : NetworkWorker.analyzeTuningRequest run = false := by
      rcases h with h | h | h | h | h | h
      · simp [NetworkWorker.analyzeTuningRequest, h]
      · simp [NetworkWorker.analyzeTuningRequest, h]
      · simp [NetworkWorker.analyzeTuningRequest, h]
      · simp [NetworkWorker.analyzeTuningRequest, hc h]
      · simp [NetworkWorker.analyzeTuningRequest, h]
      · cases hjson : run.stdoutJson with
        | none => simp [NetworkWorker.analyzeTuningRequest, hjson]
        | some obj =>
            have hne := h obj hjson
            simp [NetworkWorker.analyzeTuningRequest, hjson, hne]
    simp [NetworkWorker.sendMessage, hfalse]

/-- Claim C4, witness: a concrete positive run produces the canned
acknowledgement with zero HTTP calls, and a concrete failed helper run
(exit 1, no JSON) produces exactly one HTTP call. -/
theorem c4_witness :
    NetworkWorker.sendMessage
        { scriptCreated := true, started := true, finished := true, exitCode := 0,
          stdoutJson := some [("requires_tuning", "true"), ("confidence", "high")] }
      = { emitted := [cannedAck], httpCalls := 0 }
    ∧ (NetworkWorker.sendMessage
        { scriptCreated := true, started := true, finished := true, exitCode := 1,
          stdoutJson := none }).httpCalls = 1 := by
  constructor
  · exact (c4_classification_gates_http _ (fun h => absurd rfl h)).1 (by decide)
  · exact ((c4_classification_gates_http
      { scriptCreated := true, started := true, finished := true, exitCode := 1,
        stdoutJson := none } (fun _ => rfl)).2.2
      (Or.inr (Or.inr (Or.inr (Or.inl (by decide)))))).1

/-- Claim C5: `saveMessage` acknowledges the store-assigned id only when the
inserted row was re-read (verification SELECT succeeded and the row is
present in the committed state) and the transaction committed; on every
failing step it instead reports an error with the messages table exactly as
before the attempt. -/
theorem c5_save_ack_or_rollback (env : SaveEnv) (now : Nat) (st : DbState)
    (chatId : Int) (role content : String) :
    (∀ st' id, DatabaseWorker.saveMessage env now st chatId role content = (st', Except.ok id) →
        id = st.nextMsgId
        ∧ st' = { st with
                  messages := st.messages ++
                    [{ id := st.nextMsgId, chat_id := chatId, role := role,
                       content := content, timestamp := now }],
                  nextMsgId := st.nextMsgId + 1 }
        ∧ st'.messages.any (fun r => r.id == id) = true
        ∧ env.selectOk = true ∧ env.commitOk = true)
    ∧ (∀ st' e, DatabaseWorker.saveMessage env now st chatId role content = (st', Except.error e) →
        st' = st) := by
  constructor
  · intro st' id h
    simp only [DatabaseWorker.saveMessage] at h
    split at h
    · simp at h
    · split at h
      · simp at h
      · split at h
        · simp at h
        · split at h
          · rename_i hsel
            split at h
            · rename_i hcommit
              rw [Prod.mk.injEq] at h
              obtain ⟨h1, h2⟩ := h
              injection h2 with hid
              subst hid
              rw [Bool.and_eq_true] at hsel
              exact ⟨rfl, h1.symm, by rw [← h1]; exact hsel.2, hsel.1, hcommit⟩
            · simp at h
          · simp at h
  · intro st' e h
    simp only [DatabaseWorker.saveMessage] at h
    split at h
    · exact (congrArg Prod.fst h).symm
    · split at h
      · exact (congrArg Prod.fst h).symm
      · split at h
        · exact (congrArg Prod.fst h).symm
        · split at h
          · split at h
            · simp at h
            · exact (congrArg Prod.fst h).symm
          · exact (congrArg Prod.fst h).symm

/-- Claim C5, witness: a fully successful save on the fresh database
acknowledges id 1 with the row verified present, and a save whose commit
fails leaves the state exactly as before. -/
theorem c5_witness :
    (DatabaseWorker.saveMessage allOkSave 7 emptyDb 1 "user" "hello").1.messages.any
        (fun r => r.id == 1) = true
    ∧ (DatabaseWorker.saveMessage
        { allOkSave with commitOk := false } 7 emptyDb 1 "user" "hello").1 = emptyDb := by
  constructor
  · have h := (c5_save_ack_or_rollback allOkSave 7 emptyDb 1 "user" "hello").1
      (DatabaseWorker.saveMessage allOkSave 7 emptyDb 1 "user" "hello").1 1 rfl
    exact h.2.2.1
  · exact (c5_save_ack_or_rollback
      { allOkSave with commitOk := false } 7 emptyDb 1 "user" "hello").2
      (DatabaseWorker.saveMessage
        { allOkSave with commitOk := false } 7 emptyDb 1 "user" "hello").1
      "Failed to commit transaction" rfl

/-- Claim C9: starting from a fresh database file, any positive number of
initializations leaves exactly one chat row with id 1; moreover any
initialization run against a database that already holds a chat with id 1
leaves the state completely unchanged (the `INSERT OR IGNORE` neither
duplicates nor overwrites the existing default chat row). -/
theorem c9_init_idempotent (n : Nat) (name : String) (h : 1 ≤ n) :
    ((iterInit name n emptyDb).chats.filter (fun c => c.id == 1)).length = 1
    ∧ ∀ (st : DbState) (name2 : String) (ok : Bool),
        st.chats.any (fun c => c.id == 1) = true → initializeDatabase ok name2 st = st := by
  have hpres : ∀ (st : DbState) (name2 : String) (ok : Bool),
      st.chats.any (fun c => c.id == 1) = true → initializeDatabase ok name2 st = st := by
    intro st name2 ok hany
    unfold initializeDatabase
    cases ok <;> simp [hany]
  refine ⟨?_, hpres⟩
  obtain ⟨m, rfl⟩ : ∃ m, n = m + 1 := ⟨n - 1, by omega⟩
  have h1 : initializeDatabase true name emptyDb
      = { emptyDb with chats := [{ id := 1, name := name }] } := rfl
  have hany1 : ({ emptyDb with chats := [{ id := 1, name := name }] } : DbState).chats.any
      (fun c => c.id == 1) = true := by simp
  have hiter : ∀ (m' : Nat) (st : DbState), st.chats.any (fun c => c.id == 1) = true →
      iterInit name m' st = st := by
    intro m'
    induction m' with
    | zero => intro st _; rfl
    | succ k ih =>
        intro st hany
        show iterInit name k (initializeDatabase true name st) = st
        rw [hpres st name true hany]
        exact ih st hany
  show ((iterInit name m (initializeDatabase true name emptyDb)).chats.filter
    (fun c => c.id == 1)).length = 1
  rw [h1, hiter m _ hany1]
  simp

/-- Claim C9, witness: two initializations of a fresh file leave exactly
one default chat row. -/
theorem c9_witness :
    ((iterInit "Chat 1" 2 emptyDb).chats.filter (fun c => c.id == 1)).length = 1 :=
  (c9_init_idempotent 2 "Chat 1" (by omega)).1

/-- Claim C10: a missing settings key is reported through the success path
with the empty-string value, exactly like a key stored with the empty
string — the two are indistinguishable at the `settingLoaded` interface —
and the `last_active_chat` consumer does nothing for an empty value. -/
theorem c10_absent_setting_is_empty_success (st : DbState) (key : String) :
    (st.settings.lookup key = none →
        DatabaseWorker.loadSetting readOk st key = Except.ok (key, ""))
    ∧ (st.settings.lookup key = some "" →
        DatabaseWorker.loadSetting readOk st key = Except.ok (key, ""))
    ∧ (∀ (ost : OrchState) (k : String), DockSigint.onSettingLoaded ost k "" = (ost, [])) := by
  refine ⟨?_, ?_, ?_⟩
  · intro h; simp [DatabaseWorker.loadSetting, readOk, h]
  · intro h; simp [DatabaseWorker.loadSetting, readOk, h]
  · intro ost k
    have hempty : ("" : String).isEmpty = true := rfl
    simp [DockSigint.onSettingLoaded, hempty]

/-- A weakly-sorted permutation of a strictly-sorted row list is that list
itself: with pairwise distinct (strictly increasing) timestamps the
`ORDER BY` outcome is unique. -/
theorem perm_sorted_of_strict_sorted (rows : List MessageRow) :
    ∀ result : List MessageRow,
      List.Pairwise (fun a b => a.timestamp < b.timestamp) rows →
      result.Perm rows →
      List.Pairwise (fun a b => a.timestamp ≤ b.timestamp) result →
      result = rows := by
  induction rows with
  | nil => intro result _ hperm _; exact hperm.eq_nil
  | cons r rs ih =>
      intro result hstrict hperm hsorted
      rw [List.pairwise_cons] at hstrict
      cases result with
      | nil => exact absurd hperm.symm.eq_nil (List.cons_ne_nil r rs)
      | cons x xs =>
          rw [List.pairwise_cons] at hsorted
          have hx : x = r := by
            have hxmem : x ∈ r :: rs := hperm.mem_iff.mp (List.mem_cons_self x xs)
            rcases List.mem_cons.mp hxmem with h1 | h1
            · exact h1
            · exfalso
              have hrx : r.timestamp < x.timestamp := hstrict.1 x h1
              have hrmem : r ∈ x :: xs := hperm.mem_iff.mpr (List.mem_cons_self r rs)
              rcases List.mem_cons.mp hrmem with h2 | h2
              · rw [h2] at hrx; exact Nat.lt_irrefl _ hrx
              · have hxr : x.timestamp ≤ r.timestamp := hsorted.1 r h2
                omega
          subst hx
          rw [ih xs hstrict.2 hperm.cons_inv hsorted.2]

/-- A fully successful save appends exactly one row, carrying the next
rowid and the current clock, and acknowledges that rowid. -/
theorem saveMessage_allOk (now : Nat) (st : DbState) (chatId : Int) (role content : String) :
    DatabaseWorker.saveMessage allOkSave now st chatId role content
      = ({ st with
           messages := st.messages ++
             [{ id := st.nextMsgId, chat_id := chatId, role := role,
                content := content, timestamp := now }],
           nextMsgId := st.nextMsgId + 1 }, Except.ok st.nextMsgId) := by
  simp [DatabaseWorker.saveMessage, allOkSave, List.any_append]

/-- A sequence of successful saves appends exactly the expected rows, with
rowids assigned in submission order. -/
theorem runSaves_messages (chatId : Int) (saves : List (String × String × Nat)) :
    ∀ st : DbState,
      (runSaves chatId st saves).messages = st.messages ++ mkRows chatId st.nextMsgId saves
      ∧ (runSaves chatId st saves).nextMsgId = st.nextMsgId + saves.length := by
  induction saves with
  | nil => intro st; simp [runSaves, mkRows]
  | cons s rest ih =>
      intro st
      rw [runSaves, saveMessage_allOk]
      obtain ⟨ihm, ihn⟩ := ih
        { st with
          messages := st.messages ++
            [{ id := st.nextMsgId, chat_id := chatId, role := s.1,
               content := s.2.1, timestamp := s.2.2 }],
          nextMsgId := st.nextMsgId + 1 }
      constructor
      · rw [ihm]; simp [mkRows, List.append_assoc]
      · rw [ihn]; simp [List.length_cons]; omega

/-- All rows a save sequence appends belong to the saved-to chat. -/
theorem mkRows_filter (chatId : Int) (saves : List (String × String × Nat)) :
    ∀ n, (mkRows chatId n saves).filter (fun r => r.chat_id == chatId)
      = mkRows chatId n saves := by
  induction saves with
  | nil => intro n; rfl
  | cons s rest ih => intro n; simp [mkRows, List.filter_cons, ih]

/-- The appended rows carry exactly the submitted timestamps, in order. -/
theorem mkRows_map_timestamp (chatId : Int) (saves : List (String × String × Nat)) :
    ∀ n, (mkRows chatId n saves).map (fun r => r.timestamp)
      = saves.map (fun s => s.2.2) := by
  induction saves with
  | nil => intro n; rfl
  | cons s rest ih => intro n; simp [mkRows, ih]

/-- The appended rows carry exactly the submitted roles and contents, in order. -/
theorem mkRows_map_role_content (chatId : Int) (saves : List (String × String × Nat)) :
    ∀ n, (mkRows chatId n saves).map (fun r => (r.role, r.content))
      = saves.map (fun s => (s.1, s.2.1)) := by
  induction saves with
  | nil => intro n; rfl
  | cons s rest ih => intro n; simp [mkRows, ih]

/-- Strictly increasing submitted timestamps make the appended rows
pairwise strictly increasing. -/
theorem mkRows_pairwise_lt (chatId : Int) (saves : List (String × String × Nat)) (n : Nat)
    (hts : List.Pairwise (· < ·) (saves.map (fun s => s.2.2))) :
    List.Pairwise (fun a b => a.timestamp < b.timestamp) (mkRows chatId n saves) := by
  have h1 : List.Pairwise (· < ·) ((mkRows chatId n saves).map (fun r => r.timestamp)) := by
    rw [mkRows_map_timestamp]; exact hts
  exact List.pairwise_map.mp h1

/-- Claim C8, counterexample: two saves into one chat within the same
`CURRENT_TIMESTAMP` second (equal timestamps).  Because the query has no
secondary sort key, the tie-swapped transcript is an admissible outcome of
`loadChatHistory` — and it differs from the in-memory append order, so the
claimed insertion-order tie-break is not guaranteed by the program. -/
theorem c8_counterexample :
    DatabaseWorker.loadChatHistory readOk
        (runSaves 1 emptyDb [("user", "alpha", 10), ("assistant", "beta", 10)]) 1
        (Except.ok [("assistant", "beta"), ("user", "alpha")])
    ∧ ([("assistant", "beta"), ("user", "alpha")] : List (String × String))
      ≠ [("user", "alpha"), ("assistant", "beta")] := by
  constructor
  · refine ⟨[{ id := 2, chat_id := 1, role := "assistant", content := "beta", timestamp := 10 },
             { id := 1, chat_id := 1, role := "user", content := "alpha", timestamp := 10 }],
            ⟨by decide, by decide⟩, rfl⟩
  · decide

/-- Claim C8, amended: for a chat with no prior rows, every admissible
outcome of the unkeyed `ORDER BY timestamp ASC` is a non-decreasing-
timestamp permutation of the saved rows; when the serialized saves carry
strictly increasing timestamps that outcome is unique and equals the
in-memory append order (and that outcome is indeed admissible), but the
relative order of equal-timestamp rows is left undefined by the query; a
chat with no messages loads as a valid empty success, not an error. -/
theorem c8_amended_distinct_timestamp_order (st : DbState) (chatId : Int)
    (saves : List (String × String × Nat))
    (hempty : st.messages.filter (fun r => r.chat_id == chatId) = [])
    (hstrict : List.Pairwise (· < ·) (saves.map (fun s => s.2.2))) :
    (∀ out, DatabaseWorker.loadChatHistory readOk (runSaves chatId st saves) chatId out →
        out = Except.ok (saves.map (fun s => (s.1, s.2.1))))
    ∧ DatabaseWorker.loadChatHistory readOk (runSaves chatId st saves) chatId
        (Except.ok (saves.map (fun s => (s.1, s.2.1))))
    ∧ (∀ out, DatabaseWorker.loadChatHistory readOk st chatId out → out = Except.ok []) := by
  have hm := (runSaves_messages chatId saves st).1
  have hfilter : (runSaves chatId st saves).messages.filter (fun r => r.chat_id == chatId)
      = mkRows chatId st.nextMsgId saves := by
    rw [hm, List.filter_append, hempty, List.nil_append, mkRows_filter]
  have hrows := mkRows_pairwise_lt chatId saves st.nextMsgId hstrict
  refine ⟨?_, ?_, ?_⟩
  · intro out h
    simp only [DatabaseWorker.loadChatHistory, readOk, Bool.not_true, Bool.false_eq_true,
      if_false, isOrderByTimestampResult, hfilter] at h
    obtain ⟨result, ⟨hperm, hsorted⟩, rfl⟩ := h
    rw [perm_sorted_of_strict_sorted (mkRows chatId st.nextMsgId saves) result hrows
      hperm hsorted, mkRows_map_role_content]
  · simp only [DatabaseWorker.loadChatHistory, readOk, Bool.not_true, Bool.false_eq_true,
      if_false, isOrderByTimestampResult, hfilter]
    refine ⟨mkRows chatId st.nextMsgId saves,
      ⟨List.Perm.refl _, hrows.imp (fun hab => Nat.le_of_lt hab)⟩, ?_⟩
    rw [mkRows_map_role_content]
  · intro out h
    simp only [DatabaseWorker.loadChatHistory, readOk, Bool.not_true, Bool.false_eq_true,
      if_false, isOrderByTimestampResult, hempty] at h
    obtain ⟨result, ⟨hperm, _⟩, rfl⟩ := h
    rw [hperm.eq_nil]
    rfl

/-- Claim C8, amended, witness: two saves with distinct timestamps into the
fresh database's chat 1 admit exactly the submission-order transcript, and
an untouched chat loads only as the empty success. -/
theorem c8_amended_witness :
    DatabaseWorker.loadChatHistory readOk
        (runSaves 1 emptyDb [("user", "hello", 10), ("assistant", "hi there", 11)]) 1
        (Except.ok [("user", "hello"), ("assistant", "hi there")])
    ∧ (∀ out, DatabaseWorker.loadChatHistory readOk emptyDb 1 out → out = Except.ok []) := by
  have h := c8_amended_distinct_timestamp_order emptyDb 1
    [("user", "hello", 10), ("assistant", "hi there", 11)] rfl (by decide)
  exact ⟨h.2.1, h.2.2⟩

/-- Claim C10, witness: on a fresh database the `last_active_chat` key is
absent and reported as the empty-string success; storing it with the empty
string yields the identical acknowledgement; and the consumer leaves the
orchestrator untouched on that value. -/
theorem c10_witness :
    DatabaseWorker.loadSetting readOk emptyDb "last_active_chat"
      = Except.ok ("last_active_chat", "")
    ∧ DatabaseWorker.loadSetting readOk
        { emptyDb with settings := [("last_active_chat", "")] } "last_active_chat"
      = Except.ok ("last_active_chat", "")
    ∧ DockSigint.onSettingLoaded initOrchState "last_active_chat" "" = (initOrchState, []) := by
  refine ⟨(c10_absent_setting_is_empty_success emptyDb "last_active_chat").1 rfl,
    (c10_absent_setting_is_empty_success
      { emptyDb with settings := [("last_active_chat", "")] } "last_active_chat").2.1 rfl,
    (c10_absent_setting_is_empty_success emptyDb "last_active_chat").2.2
      initOrchState "last_active_chat"⟩
